import Mathlib

/-!
# Marketplace negotiation / review core — shallow embedding

Embedding of the negotiation and rating-aggregation core of the
marketplace backend:

* `src/src/controllers/negotiation.controller.ts`
  (`createNegotiation`, `updateNegotiationStatus`, `cancelNegotiation`)
* `src/src/controllers/review.controller.ts`
  (`createReview`, `updateReview`, `deleteReview`)
* `prisma/migrations/20251215130000_init/migration.sql` (column types and
  constraints; in particular `services.avg_rating NUMERIC(3,2)`).

The relational store is modelled as explicit lists of rows; each
controller action is a pure function from a request and a database state
to `Except ApiError Db`.  Record fields that no business rule reads
(titles, descriptions, images, phone numbers, prices of services, user
e-mail, …) are omitted from the row types; ids, foreign keys, ratings,
comments, offer prices, statuses and the `updatedAt` timestamps — the
fields the controllers branch on or write — are kept.

Timestamps are modelled as `Nat` clock values passed in as `now`
(`new Date()` in the source).
-/

namespace Marketplace

/-- User roles (`UserRole` enum in the Prisma schema). -/
inductive Role
  | CUSTOMER
  | VENDOR
  | ADMIN
deriving DecidableEq, Repr

/-- Negotiation statuses (`NegotiationStatus` enum). -/
inductive NegotiationStatus
  | PENDING
  | ACCEPTED
  | REJECTED
deriving DecidableEq, Repr

/-- The upstream `statusUpdateSchema` only admits `ACCEPTED` or `REJECTED`
(`z.enum(['ACCEPTED', 'REJECTED'])`), so a parsed resolve request carries
one of these two decisions. -/
inductive ResolveDecision
  | accept
  | reject
deriving DecidableEq, Repr

/-- The requested terminal status of a resolve call. -/
def ResolveDecision.toStatus : ResolveDecision → NegotiationStatus
  | .accept => .ACCEPTED
  | .reject => .REJECTED

/-- Error outcomes of the controllers, one constructor per distinct failure
response in the source (the spec's error taxonomy of §7). -/
inductive ApiError
  | forbidden             -- 403 role gate / ownership check
  | validationError       -- 400 zod parse failure
  | notFound              -- 404 referenced entity absent
  | selfNegotiation       -- 400 "Cannot negotiate your own service"
  | duplicatePending      -- 400 "You already have a pending negotiation …"
  | selfReview            -- 400 "Cannot review your own service"
  | duplicateReview       -- 400 "You have already reviewed this service"
  | ineligible            -- 400 "You can only review services you have successfully negotiated for"
  | invalidStateTransition -- 400 "Cannot update/cancel negotiation that is not pending"
deriving DecidableEq, Repr

/-- A row of `services` (payload columns that no rule reads are omitted). -/
structure Service where
  id : Nat
  vendorId : Nat
  avgRating : ℚ
deriving DecidableEq, Repr

/-- A row of `negotiations`. -/
structure Negotiation where
  id : Nat
  serviceId : Nat
  customerId : Nat
  offerPrice : ℚ
  status : NegotiationStatus
  updatedAt : Nat
deriving DecidableEq, Repr

/-- A row of `reviews`. -/
structure Review where
  id : Nat
  serviceId : Nat
  customerId : Nat
  rating : Nat
  comment : Option String
  updatedAt : Nat
deriving DecidableEq, Repr

/-- The relational store.  `nextNegotiationId` / `nextReviewId` model the
`SERIAL` primary-key sequences. -/
structure Db where
  services : List Service
  negotiations : List Negotiation
  reviews : List Review
  nextNegotiationId : Nat
  nextReviewId : Nat
deriving DecidableEq, Repr

/-- `prisma.service.findUnique({ where: { id } })`. -/
def findService (db : Db) (sid : Nat) : Option Service :=
  db.services.find? (fun s => s.id = sid)

/-- `prisma.negotiation.findUnique({ where: { id } })`. -/
def findNegotiation (db : Db) (nid : Nat) : Option Negotiation :=
  db.negotiations.find? (fun n => n.id = nid)

/-- `prisma.review.findUnique({ where: { id } })`. -/
def findReview (db : Db) (rid : Nat) : Option Review :=
  db.reviews.find? (fun r => r.id = rid)

/-- `prisma.negotiation.findFirst({ where: { serviceId, customerId, status } })`. -/
def findNegotiationWithStatus (db : Db) (sid cid : Nat)
    (st : NegotiationStatus) : Option Negotiation :=
  db.negotiations.find?
    (fun n => n.serviceId = sid && n.customerId = cid && n.status = st)

/-- `prisma.review.findFirst({ where: { serviceId, customerId } })`. -/
def findReviewByPair (db : Db) (sid cid : Nat) : Option Review :=
  db.reviews.find? (fun r => r.serviceId = sid && r.customerId = cid)

/-- Reviews currently stored for a service (the aggregation set of
`tx.review.aggregate({ where: { serviceId } })`). -/
def reviewsOf (db : Db) (sid : Nat) : List Review :=
  db.reviews.filter (fun r => r.serviceId = sid)

/-- `AVG(rating)` over the reviews of a service, with the controllers'
`_avg.rating || 0` defaulting: `0` when the service has no reviews. -/
def meanRating (db : Db) (sid : Nat) : ℚ :=
  let rs := reviewsOf db sid
  if rs.length = 0 then 0
  else ((rs.map (fun r => (r.rating : ℚ))).sum) / (rs.length : ℚ)

/-- Quantization performed by the `services.avg_rating NUMERIC(3,2)` column
(migration.sql): the value is stored rounded to two decimal digits, ties
away from zero (ratings are nonnegative, so ties round up). -/
def roundTo2 (q : ℚ) : ℚ :=
  (⌊q * 100 + 1 / 2⌋ : ℚ) / 100

/-- `tx.service.update({ where: { id: sid }, data: { avgRating: v } })`:
the written value lands in the `NUMERIC(3,2)` column, hence quantized by
`roundTo2`. -/
def writeServiceAvg (db : Db) (sid : Nat) (v : ℚ) : Db :=
  { db with
    services := db.services.map
      (fun s => if s.id = sid then { s with avgRating := roundTo2 v } else s) }

/-- The rating-aggregation step shared by the three review mutations:
recompute `AVG(rating)` over the service's current reviews (`0` when none)
and write it back to the service row. -/
def recomputeServiceAvg (db : Db) (sid : Nat) : Db :=
  writeServiceAvg db sid (meanRating db sid)

/-- `validatedData.comment?.trim() || null`: an absent comment, or one that
trims to the empty string, is stored as `NULL`; otherwise the trimmed
string is stored. -/
def normalizeComment : Option String → Option String
  | none => none
  | some s => let t := s.trim; if t = "" then none else some t

/-- Parsed body of `POST /negotiations` (`negotiationSchema`). -/
structure NegotiationBody where
  serviceId : Nat
  offerPrice : ℚ
deriving DecidableEq, Repr

/-- Parsed body of `POST /reviews` (`reviewSchema`). -/
structure ReviewBody where
  serviceId : Nat
  rating : Nat
  comment : Option String
deriving DecidableEq, Repr

/-- Parsed body of `PATCH /reviews/:id` (`reviewSchema.partial()`): every
field of `reviewSchema` becomes optional, **including `serviceId`**. -/
structure ReviewPatch where
  serviceId : Option Nat
  rating : Option Nat
  comment : Option String
deriving DecidableEq, Repr

/-- `reviewSchema` validation: `rating` is an integer in `1..5`, `comment`
at most 500 characters.  (`serviceId` only has to be an integer, which the
`Nat` field already guarantees.) -/
def reviewBodyValid (b : ReviewBody) : Prop :=
  1 ≤ b.rating ∧ b.rating ≤ 5 ∧ (b.comment.getD "").length ≤ 500

instance (b : ReviewBody) : Decidable (reviewBodyValid b) := by
  unfold reviewBodyValid; exact inferInstance

/-- `reviewSchema.partial()` validation: each supplied field must satisfy
its `reviewSchema` constraint (an absent field passes, modelled by a
default that satisfies the constraint). -/
def reviewPatchValid (b : ReviewPatch) : Prop :=
  1 ≤ b.rating.getD 1 ∧ b.rating.getD 1 ≤ 5 ∧ (b.comment.getD "").length ≤ 500

instance (b : ReviewPatch) : Decidable (reviewPatchValid b) := by
  unfold reviewPatchValid; exact inferInstance

/-- `createNegotiation` (negotiation.controller.ts, lines 18–110).
Order of the source's checks: role gate (CUSTOMER or ADMIN), zod parse
(`offerPrice` must be positive), service lookup, self-negotiation check,
duplicate-PENDING check, insert. -/
def createNegotiation (role : Role) (customerId : Nat) (body : NegotiationBody)
    (now : Nat) (db : Db) : Except ApiError Db :=
  if ¬ (role = Role.CUSTOMER ∨ role = Role.ADMIN) then .error .forbidden
  else if ¬ (0 < body.offerPrice) then .error .validationError
  else match findService db body.serviceId with
    | none => .error .notFound
    | some service =>
      if service.vendorId = customerId then .error .selfNegotiation
      else if (findNegotiationWithStatus db body.serviceId customerId .PENDING).isSome then
        .error .duplicatePending
      else .ok { db with
        negotiations := db.negotiations ++
          [{ id := db.nextNegotiationId
             serviceId := body.serviceId
             customerId := customerId
             offerPrice := body.offerPrice
             status := .PENDING
             updatedAt := now }]
        nextNegotiationId := db.nextNegotiationId + 1 }

/-- `updateNegotiationStatus` (negotiation.controller.ts, lines 257–345).
Order of the source's checks: role gate (VENDOR or ADMIN), zod parse of the
status, negotiation lookup, ownership check (ADMIN exempt), pending check,
update of status and `updatedAt`.  The `include: { service }` relation load
is modelled by a service lookup; the foreign key guarantees it succeeds on
states with referential integrity. -/
def updateNegotiationStatus (role : Role) (userId : Nat) (negotiationId : Nat)
    (d : ResolveDecision) (now : Nat) (db : Db) : Except ApiError Db :=
  if ¬ (role = Role.VENDOR ∨ role = Role.ADMIN) then .error .forbidden
  else match findNegotiation db negotiationId with
    | none => .error .notFound
    | some existing =>
      match findService db existing.serviceId with
      | none => .error .notFound
      | some service =>
        if ¬ (role = Role.ADMIN) ∧ ¬ (service.vendorId = userId) then .error .forbidden
        else if ¬ (existing.status = .PENDING) then .error .invalidStateTransition
        else .ok { db with
          negotiations := db.negotiations.map
            (fun n => if n.id = negotiationId then
              { n with status := d.toStatus, updatedAt := now } else n) }

/-- `cancelNegotiation` (negotiation.controller.ts, lines 348–393).
Order of the source's checks: role gate (CUSTOMER or ADMIN), negotiation
lookup, ownership check (ADMIN exempt), pending check, delete. -/
def cancelNegotiation (role : Role) (userId : Nat) (negotiationId : Nat)
    (db : Db) : Except ApiError Db :=
  if ¬ (role = Role.CUSTOMER ∨ role = Role.ADMIN) then .error .forbidden
  else match findNegotiation db negotiationId with
    | none => .error .notFound
    | some existing =>
      if ¬ (role = Role.ADMIN) ∧ ¬ (existing.customerId = userId) then .error .forbidden
      else if ¬ (existing.status = .PENDING) then .error .invalidStateTransition
      else .ok { db with
        negotiations := db.negotiations.filter (fun n => ¬ n.id = negotiationId) }

/-- `createReview` (review.controller.ts, lines 15–124).
Order of the source's checks: role gate (CUSTOMER or ADMIN), zod parse,
service lookup, self-review check, duplicate-review check,
accepted-negotiation eligibility check (skipped for ADMIN), then, in one
transaction, the insert and the rating-aggregation write-back. -/
def createReview (role : Role) (customerId : Nat) (body : ReviewBody)
    (now : Nat) (db : Db) : Except ApiError Db :=
  if ¬ (role = Role.CUSTOMER ∨ role = Role.ADMIN) then .error .forbidden
  else if ¬ reviewBodyValid body then .error .validationError
  else match findService db body.serviceId with
    | none => .error .notFound
    | some service =>
      if service.vendorId = customerId then .error .selfReview
      else if (findReviewByPair db body.serviceId customerId).isSome then
        .error .duplicateReview
      else if (findNegotiationWithStatus db body.serviceId customerId .ACCEPTED).isNone
          ∧ ¬ (role = Role.ADMIN) then
        .error .ineligible
      else
        let db1 : Db := { db with
          reviews := db.reviews ++
            [{ id := db.nextReviewId
               serviceId := body.serviceId
               customerId := customerId
               rating := body.rating
               comment := normalizeComment body.comment
               updatedAt := now }]
          nextReviewId := db.nextReviewId + 1 }
        .ok (recomputeServiceAvg db1 body.serviceId)

/-- `updateReview` (review.controller.ts, lines 237–321).
Order of the source's checks: role gate (CUSTOMER or ADMIN), zod parse of
the partial body, review lookup, ownership check (ADMIN exempt), then, in
one transaction, the row update and — only when a rating was supplied — the
rating-aggregation write-back for `existingReview.serviceId` (the review's
*pre-update* service).  The `...validatedData` spread applies every
supplied field, so a supplied `serviceId` moves the review to another
service, and `comment: validatedData.comment?.trim() || null` always
overwrites the comment column.

`patchReview` is the row update of the `...validatedData` spread: supplied
fields overwrite, absent ones keep the stored value — except `comment`,
which is always written. -/
def patchReview (body : ReviewPatch) (now : Nat) (r : Review) : Review :=
  { r with
    serviceId := body.serviceId.getD r.serviceId
    rating := body.rating.getD r.rating
    comment := normalizeComment body.comment
    updatedAt := now }

/-- The store after `tx.review.update({ where: { id: reviewId }, data })`. -/
def patchReviewDb (reviewId : Nat) (body : ReviewPatch) (now : Nat) (db : Db) : Db :=
  { db with
    reviews := db.reviews.map
      (fun r => if r.id = reviewId then patchReview body now r else r) }

def updateReview (role : Role) (userId : Nat) (reviewId : Nat)
    (body : ReviewPatch) (now : Nat) (db : Db) : Except ApiError Db :=
  if ¬ (role = Role.CUSTOMER ∨ role = Role.ADMIN) then .error .forbidden
  else if ¬ reviewPatchValid body then .error .validationError
  else match findReview db reviewId with
    | none => .error .notFound
    | some existing =>
      if ¬ (role = Role.ADMIN) ∧ ¬ (existing.customerId = userId) then .error .forbidden
      else
        let db1 : Db := patchReviewDb reviewId body now db
        match body.rating with
        | none => .ok db1
        | some _ => .ok (recomputeServiceAvg db1 existing.serviceId)

/-- `deleteReview` (review.controller.ts, lines 324–381).
Order of the source's checks: role gate (CUSTOMER or ADMIN), review lookup,
ownership check (ADMIN exempt), then, in one transaction, the delete and
the rating-aggregation write-back for `existingReview.serviceId`. -/
def deleteReview (role : Role) (userId : Nat) (reviewId : Nat)
    (db : Db) : Except ApiError Db :=
  if ¬ (role = Role.CUSTOMER ∨ role = Role.ADMIN) then .error .forbidden
  else match findReview db reviewId with
    | none => .error .notFound
    | some existing =>
      if ¬ (role = Role.ADMIN) ∧ ¬ (existing.customerId = userId) then .error .forbidden
      else
        let db1 : Db := { db with
          reviews := db.reviews.filter (fun r => ¬ r.id = reviewId) }
        .ok (recomputeServiceAvg db1 existing.serviceId)

/-- The `avgRating` column of the service row with id `sid`, as stored. -/
def serviceAvg (db : Db) (sid : Nat) : Option ℚ :=
  (findService db sid).map (fun s => s.avgRating)

end Marketplace

namespace Marketplace

/-! ## Reachability: one step per controller action -/

/-- One controller invocation, with its actor and parsed request. -/
inductive Op
  | createNeg (role : Role) (customerId : Nat) (body : NegotiationBody) (now : Nat)
  | resolveNeg (role : Role) (userId : Nat) (negotiationId : Nat)
      (d : ResolveDecision) (now : Nat)
  | cancelNeg (role : Role) (userId : Nat) (negotiationId : Nat)
  | createRev (role : Role) (customerId : Nat) (body : ReviewBody) (now : Nat)
  | updateRev (role : Role) (userId : Nat) (reviewId : Nat) (body : ReviewPatch) (now : Nat)
  | deleteRev (role : Role) (userId : Nat) (reviewId : Nat)

/-- Run one controller invocation. -/
def runOp : Op → Db → Except ApiError Db
  | .createNeg role cid body now, db => createNegotiation role cid body now db
  | .resolveNeg role uid nid d now, db => updateNegotiationStatus role uid nid d now db
  | .cancelNeg role uid nid, db => cancelNegotiation role uid nid db
  | .createRev role cid body now, db => createReview role cid body now db
  | .updateRev role uid rid body now, db => updateReview role uid rid body now db
  | .deleteRev role uid rid, db => deleteReview role uid rid db

/-- The state after one controller invocation: a failed request leaves the
store untouched (every controller either rolls back or never writes). -/
def applyOp (op : Op) (db : Db) : Db :=
  match runOp op db with
  | .ok db' => db'
  | .error _ => db

/-- The PENDING negotiations of one (service, customer) pair. -/
def pendingFor (db : Db) (sid cid : Nat) : List Negotiation :=
  db.negotiations.filter
    (fun n => n.serviceId = sid && n.customerId = cid && n.status = .PENDING)

/-- Invariant: at most one PENDING negotiation per (service, customer) pair. -/
def atMostOnePending (db : Db) : Prop :=
  ∀ sid cid, (pendingFor db sid cid).length ≤ 1

/-- Primary keys are unique (`SERIAL PRIMARY KEY` on `negotiations.id`). -/
def negotiationIdsNodup (db : Db) : Prop :=
  (db.negotiations.map Negotiation.id).Nodup

instance (db : Db) : Decidable (negotiationIdsNodup db) := by
  unfold negotiationIdsNodup; exact List.nodupDecidable _

end Marketplace

namespace Marketplace

/-! ## C5 / C6: error cases and their order -/

/-- An empty store. -/
def emptyDb : Db :=
  { services := [], negotiations := [], reviews := []
    nextNegotiationId := 1, nextReviewId := 1 }

/-- C5 (counterexample): with the service absent *and* a non-positive
`offerPrice`, `createNegotiation` fails with `ValidationError`, not with
`NotFound` — the zod parse runs before the service lookup, so the failure
modes do not occur in the order the spec lists them (`NotFound` first,
`ValidationError` last). -/
theorem createNegotiation_validation_before_notFound :
    createNegotiation Role.CUSTOMER 1 { serviceId := 99, offerPrice := -5 } 0 emptyDb
        = .error .validationError ∧
      findService emptyDb 99 = none ∧
      ApiError.validationError ≠ ApiError.notFound := by
  refine ⟨?_, rfl, by decide⟩
  have : ¬ ((0 : ℚ) < -5) := by norm_num
  simp [createNegotiation, this]

/-- C5 (amended): the failure modes of `createNegotiation` in the order the
code checks them: role gate (CUSTOMER or ADMIN required, else `Forbidden`),
input validation (`offerPrice` positive, else `ValidationError`), service
lookup (`NotFound`), self-negotiation check (`SelfNegotiation`),
duplicate-PENDING check (`DuplicatePending`); else a new PENDING record is
inserted. -/
theorem createNegotiation_cases (role : Role) (cid : Nat) (body : NegotiationBody)
    (now : Nat) (db : Db) :
    (¬ (role = Role.CUSTOMER ∨ role = Role.ADMIN) →
      createNegotiation role cid body now db = .error .forbidden) ∧
    ((role = Role.CUSTOMER ∨ role = Role.ADMIN) → ¬ (0 < body.offerPrice) →
      createNegotiation role cid body now db = .error .validationError) ∧
    ((role = Role.CUSTOMER ∨ role = Role.ADMIN) → 0 < body.offerPrice →
      findService db body.serviceId = none →
      createNegotiation role cid body now db = .error .notFound) ∧
    (∀ s, (role = Role.CUSTOMER ∨ role = Role.ADMIN) → 0 < body.offerPrice →
      findService db body.serviceId = some s → s.vendorId = cid →
      createNegotiation role cid body now db = .error .selfNegotiation) ∧
    (∀ s, (role = Role.CUSTOMER ∨ role = Role.ADMIN) → 0 < body.offerPrice →
      findService db body.serviceId = some s → ¬ (s.vendorId = cid) →
      (∃ n ∈ db.negotiations, n.serviceId = body.serviceId ∧ n.customerId = cid ∧
        n.status = .PENDING) →
      createNegotiation role cid body now db = .error .duplicatePending) ∧
    (∀ s, (role = Role.CUSTOMER ∨ role = Role.ADMIN) → 0 < body.offerPrice →
      findService db body.serviceId = some s → ¬ (s.vendorId = cid) →
      (∀ n ∈ db.negotiations, ¬ (n.serviceId = body.serviceId ∧ n.customerId = cid ∧
        n.status = .PENDING)) →
      createNegotiation role cid body now db = .ok { db with
        negotiations := db.negotiations ++
          [{ id := db.nextNegotiationId, serviceId := body.serviceId, customerId := cid
             offerPrice := body.offerPrice, status := .PENDING, updatedAt := now }]
        nextNegotiationId := db.nextNegotiationId + 1 }) := by
  refine ⟨?_, ?_, ?_, ?_, ?_, ?_⟩
  · intro h; simp [createNegotiation, h]
  · intro h h2; rcases h with h | h <;> simp [createNegotiation, h, h2]
  · intro h h2 h3; rcases h with h | h <;> simp [createNegotiation, h, h2, h3]
  · intro s h h2 h3 h4; rcases h with h | h <;> simp [createNegotiation, h, h2, h3, h4]
  · intro s h h2 h3 h4 h5
    have hdup : (findNegotiationWithStatus db body.serviceId cid .PENDING).isSome := by
      simpa [findNegotiationWithStatus, List.find?_isSome, and_assoc] using h5
    rcases h with h | h <;> simp [createNegotiation, h, h2, h3, h4, hdup]
  · intro s h h2 h3 h4 h5
    have hnone : findNegotiationWithStatus db body.serviceId cid .PENDING = none := by
      simp only [findNegotiationWithStatus, List.find?_eq_none]
      intro n hn
      simpa [and_assoc] using h5 n hn
    rcases h with h | h <;> simp [createNegotiation, h, h2, h3, h4, hnone]

/-- C5 (witness): on an otherwise-empty store holding one service, a
customer's valid offer is inserted as a PENDING negotiation. -/
theorem createNegotiation_cases_witness :
    createNegotiation Role.CUSTOMER 20 { serviceId := 1, offerPrice := 80 } 3
        { services := [{ id := 1, vendorId := 10, avgRating := 0 }]
          negotiations := [], reviews := [], nextNegotiationId := 1, nextReviewId := 1 }
      = .ok { services := [{ id := 1, vendorId := 10, avgRating := 0 }]
              negotiations := [{ id := 1, serviceId := 1, customerId := 20
                                 offerPrice := 80, status := .PENDING, updatedAt := 3 }]
              reviews := [], nextNegotiationId := 2, nextReviewId := 1 } :=
  (createNegotiation_cases Role.CUSTOMER 20 { serviceId := 1, offerPrice := 80 } 3
      { services := [{ id := 1, vendorId := 10, avgRating := 0 }]
        negotiations := [], reviews := [], nextNegotiationId := 1, nextReviewId := 1 }).2.2.2.2.2
    { id := 1, vendorId := 10, avgRating := 0 }
    (Or.inl rfl) (by norm_num) rfl (by decide) (by simp)

end Marketplace

namespace Marketplace

/-- C6 (counterexample): for an actor whose role fails the vendor/admin
gate, `resolveNegotiation` fails with `Forbidden` even when the negotiation
is absent — the role part of the `Forbidden` check runs before the lookup,
so `NotFound` does not take precedence over `Forbidden`. -/
theorem resolveNegotiation_roleGate_before_notFound :
    updateNegotiationStatus Role.CUSTOMER 1 5 .accept 0 emptyDb = .error .forbidden ∧
      findNegotiation emptyDb 5 = none ∧
      ApiError.forbidden ≠ ApiError.notFound := by
  exact ⟨by simp [updateNegotiationStatus], rfl, by decide⟩

/-- C6 (amended): the checks of `resolveNegotiation`
(`updateNegotiationStatus`) in the order the code runs them: role gate
(VENDOR or ADMIN required, else `Forbidden`); then `NotFound` if the
negotiation is absent; then ownership `Forbidden` unless the actor is ADMIN
or the vendor of the negotiation's service; then `InvalidStateTransition`
if the status is not PENDING; else the status is set to the requested value
and the timestamp updated. -/
theorem updateNegotiationStatus_cases (role : Role) (uid nid : Nat)
    (d : ResolveDecision) (now : Nat) (db : Db) :
    (¬ (role = Role.VENDOR ∨ role = Role.ADMIN) →
      updateNegotiationStatus role uid nid d now db = .error .forbidden) ∧
    ((role = Role.VENDOR ∨ role = Role.ADMIN) → findNegotiation db nid = none →
      updateNegotiationStatus role uid nid d now db = .error .notFound) ∧
    (∀ n s, (role = Role.VENDOR ∨ role = Role.ADMIN) →
      findNegotiation db nid = some n → findService db n.serviceId = some s →
      ¬ (role = Role.ADMIN) → ¬ (s.vendorId = uid) →
      updateNegotiationStatus role uid nid d now db = .error .forbidden) ∧
    (∀ n s, (role = Role.VENDOR ∨ role = Role.ADMIN) →
      findNegotiation db nid = some n → findService db n.serviceId = some s →
      (role = Role.ADMIN ∨ s.vendorId = uid) → ¬ (n.status = .PENDING) →
      updateNegotiationStatus role uid nid d now db = .error .invalidStateTransition) ∧
    (∀ n s, (role = Role.VENDOR ∨ role = Role.ADMIN) →
      findNegotiation db nid = some n → findService db n.serviceId = some s →
      (role = Role.ADMIN ∨ s.vendorId = uid) → n.status = .PENDING →
      updateNegotiationStatus role uid nid d now db = .ok { db with
        negotiations := db.negotiations.map
          (fun m => if m.id = nid then
            { m with status := d.toStatus, updatedAt := now } else m) } ∧
      { n with status := d.toStatus, updatedAt := now } ∈
        ({ db with
           negotiations := db.negotiations.map
             (fun m => if m.id = nid then
               { m with status := d.toStatus, updatedAt := now } else m) } : Db).negotiations) := by
  refine ⟨?_, ?_, ?_, ?_, ?_⟩
  · intro h; simp [updateNegotiationStatus, h]
  · intro h h2; rcases h with h | h <;> simp [updateNegotiationStatus, h, h2]
  · intro n s h h2 h3 h4 h5
    rcases h with h | h <;> simp_all [updateNegotiationStatus]
  · intro n s h h2 h3 hauth h5
    rcases h with h | h <;> rcases hauth with ha | ha <;>
      simp_all [updateNegotiationStatus]
  · intro n s h h2 h3 hauth h5
    have hid : n.id = nid := by
      have := List.find?_some h2
      simpa using this
    have hmem : n ∈ db.negotiations := List.mem_of_find?_eq_some h2
    constructor
    · rcases h with h | h <;> rcases hauth with ha | ha <;>
        simp_all [updateNegotiationStatus]
    · refine List.mem_map.2 ⟨n, hmem, ?_⟩
      simp [hid]

/-- C6 (witness): the vendor of the service accepts a PENDING negotiation;
the record's status becomes ACCEPTED and its timestamp is updated. -/
theorem updateNegotiationStatus_cases_witness :
    updateNegotiationStatus Role.VENDOR 10 1 .accept 9
        { services := [{ id := 1, vendorId := 10, avgRating := 0 }]
          negotiations := [{ id := 1, serviceId := 1, customerId := 20
                             offerPrice := 80, status := .PENDING, updatedAt := 3 }]
          reviews := [], nextNegotiationId := 2, nextReviewId := 1 }
      = .ok { services := [{ id := 1, vendorId := 10, avgRating := 0 }]
              negotiations := [{ id := 1, serviceId := 1, customerId := 20
                                 offerPrice := 80, status := .ACCEPTED, updatedAt := 9 }]
              reviews := [], nextNegotiationId := 2, nextReviewId := 1 } := by
  have h := (updateNegotiationStatus_cases Role.VENDOR 10 1 .accept 9
      { services := [{ id := 1, vendorId := 10, avgRating := 0 }]
        negotiations := [{ id := 1, serviceId := 1, customerId := 20
                           offerPrice := 80, status := .PENDING, updatedAt := 3 }]
        reviews := [], nextNegotiationId := 2, nextReviewId := 1 }).2.2.2.2
      { id := 1, serviceId := 1, customerId := 20
        offerPrice := 80, status := .PENDING, updatedAt := 3 }
      { id := 1, vendorId := 10, avgRating := 0 }
      (Or.inl rfl) rfl rfl (Or.inr rfl) rfl
  simpa using h.1

end Marketplace

namespace Marketplace

/-! ## Success-shape lemmas: what a controller's `.ok` result looks like -/

/-- The record inserted by a successful `createNegotiation`. -/
def newNegotiation (db : Db) (sid cid : Nat) (price : ℚ) (now : Nat) : Negotiation :=
  { id := db.nextNegotiationId, serviceId := sid, customerId := cid
    offerPrice := price, status := .PENDING, updatedAt := now }

lemma createNegotiation_ok {role : Role} {cid : Nat} {body : NegotiationBody}
    {now : Nat} {db db' : Db}
    (h : createNegotiation role cid body now db = .ok db') :
    findNegotiationWithStatus db body.serviceId cid .PENDING = none ∧
    db' = { db with
      negotiations := db.negotiations ++
        [newNegotiation db body.serviceId cid body.offerPrice now]
      nextNegotiationId := db.nextNegotiationId + 1 } := by
  unfold createNegotiation at h
  split at h
  · exact absurd h (by simp)
  · split at h
    · exact absurd h (by simp)
    · split at h
      · exact absurd h (by simp)
      · split at h
        · exact absurd h (by simp)
        · split at h
          · exact absurd h (by simp)
          · rename_i hdup
            refine ⟨by simpa using hdup, ?_⟩
            simpa [newNegotiation] using h.symm

lemma updateNegotiationStatus_ok {role : Role} {uid nid : Nat}
    {d : ResolveDecision} {now : Nat} {db db' : Db}
    (h : updateNegotiationStatus role uid nid d now db = .ok db') :
    ∃ n, findNegotiation db nid = some n ∧ n.status = .PENDING ∧
      db' = { db with
        negotiations := db.negotiations.map
          (fun m => if m.id = nid then
            { m with status := d.toStatus, updatedAt := now } else m) } := by
  unfold updateNegotiationStatus at h
  split at h
  · exact absurd h (by simp)
  · split at h
    · exact absurd h (by simp)
    · rename_i n hn
      split at h
      · exact absurd h (by simp)
      · split at h
        · exact absurd h (by simp)
        · split at h
          · exact absurd h (by simp)
          · rename_i hpend
            exact ⟨n, hn, not_not.mp hpend, (by simpa using h.symm)⟩

lemma cancelNegotiation_ok {role : Role} {uid nid : Nat} {db db' : Db}
    (h : cancelNegotiation role uid nid db = .ok db') :
    ∃ n, findNegotiation db nid = some n ∧ n.status = .PENDING ∧
      db' = { db with
        negotiations := db.negotiations.filter (fun m => ¬ m.id = nid) } := by
  unfold cancelNegotiation at h
  split at h
  · exact absurd h (by simp)
  · split at h
    · exact absurd h (by simp)
    · rename_i n hn
      split at h
      · exact absurd h (by simp)
      · split at h
        · exact absurd h (by simp)
        · rename_i hpend
          exact ⟨n, hn, not_not.mp hpend, (by simpa using h.symm)⟩

/-- The record inserted by a successful `createReview`. -/
def newReview (db : Db) (body : ReviewBody) (cid now : Nat) : Review :=
  { id := db.nextReviewId, serviceId := body.serviceId, customerId := cid
    rating := body.rating, comment := normalizeComment body.comment
    updatedAt := now }

lemma createReview_ok {role : Role} {cid : Nat} {body : ReviewBody}
    {now : Nat} {db db' : Db}
    (h : createReview role cid body now db = .ok db') :
    (findService db body.serviceId).isSome ∧
    db' = recomputeServiceAvg
      { db with reviews := db.reviews ++ [newReview db body cid now]
                nextReviewId := db.nextReviewId + 1 }
      body.serviceId := by
  unfold createReview at h
  split at h
  · exact absurd h (by simp)
  · split at h
    · exact absurd h (by simp)
    · split at h
      · exact absurd h (by simp)
      · rename_i s hs
        split at h
        · exact absurd h (by simp)
        · split at h
          · exact absurd h (by simp)
          · split at h
            · exact absurd h (by simp)
            · exact ⟨by simp [hs], by simpa [newReview] using h.symm⟩

lemma updateReview_ok {role : Role} {uid rid : Nat} {body : ReviewPatch}
    {now : Nat} {db db' : Db}
    (h : updateReview role uid rid body now db = .ok db') :
    ∃ r, findReview db rid = some r ∧
      (body.rating = none → db' = patchReviewDb rid body now db) ∧
      (body.rating ≠ none →
        db' = recomputeServiceAvg (patchReviewDb rid body now db) r.serviceId) := by
  unfold updateReview at h
  split at h
  · exact absurd h (by simp)
  · split at h
    · exact absurd h (by simp)
    · split at h
      · exact absurd h (by simp)
      · rename_i r hr
        split at h
        · exact absurd h (by simp)
        · refine ⟨r, hr, ?_, ?_⟩ <;> intro hrat
          · rw [hrat] at h; simpa using h.symm
          · rcases hb : body.rating with _ | k
            · exact absurd hb hrat
            · rw [hb] at h; simpa using h.symm

lemma deleteReview_ok {role : Role} {uid rid : Nat} {db db' : Db}
    (h : deleteReview role uid rid db = .ok db') :
    ∃ r, findReview db rid = some r ∧
      db' = recomputeServiceAvg
        { db with reviews := db.reviews.filter (fun m => ¬ m.id = rid) }
        r.serviceId := by
  unfold deleteReview at h
  split at h
  · exact absurd h (by simp)
  · split at h
    · exact absurd h (by simp)
    · rename_i r hr
      split at h
      · exact absurd h (by simp)
      · exact ⟨r, hr, by simpa using h.symm⟩

end Marketplace

namespace Marketplace

/-! ## C3: at most one PENDING negotiation per (service, customer) pair -/

lemma pendingFor_of_negotiations_eq {db db' : Db}
    (h : db'.negotiations = db.negotiations) (sid cid : Nat) :
    pendingFor db' sid cid = pendingFor db sid cid := by
  simp [pendingFor, h]

lemma resolveDecision_toStatus_ne_pending (d : ResolveDecision) :
    d.toStatus ≠ .PENDING := by
  cases d <;> simp [ResolveDecision.toStatus]

lemma atMostOnePending_preserved (op : Op) (db : Db) (h : atMostOnePending db) :
    atMostOnePending (applyOp op db) := by
  rcases hrun : runOp op db with e | db'
  · simpa [applyOp, hrun] using h
  · simp only [applyOp, hrun]
    cases op with
    | createNeg role cid body now =>
      obtain ⟨hnone, hdb'⟩ := createNegotiation_ok (by simpa [runOp] using hrun)
      subst hdb'
      intro s c
      simp only [pendingFor, List.filter_append, List.length_append]
      rcases hp : ((newNegotiation db body.serviceId cid body.offerPrice now).serviceId = s &&
          (newNegotiation db body.serviceId cid body.offerPrice now).customerId = c &&
          (newNegotiation db body.serviceId cid body.offerPrice now).status = .PENDING : Bool) with _ | _
      · have hfor := h s c
        simp only [pendingFor] at hfor
        simpa [hp] using hfor
      · simp only [newNegotiation, Bool.and_eq_true, decide_eq_true_eq] at hp
        obtain ⟨⟨hs, hc⟩, -⟩ := hp
        subst hs; subst hc
        have hfind : db.negotiations.find?
            (fun n => n.serviceId = body.serviceId && n.customerId = cid &&
              n.status = NegotiationStatus.PENDING) = none := hnone
        have hempty : db.negotiations.filter
            (fun n => n.serviceId = body.serviceId && n.customerId = cid &&
              n.status = NegotiationStatus.PENDING) = [] :=
          List.filter_eq_nil_iff.mpr (List.find?_eq_none.mp hfind)
        simp [hempty, newNegotiation]
    | resolveNeg role uid nid d now =>
      obtain ⟨n, hn, hpend, hdb'⟩ := updateNegotiationStatus_ok (by simpa [runOp] using hrun)
      subst hdb'
      intro s c
      have hfor := h s c
      simp only [pendingFor, ← List.countP_eq_length_filter] at hfor ⊢
      rw [List.countP_map]
      refine le_trans (List.countP_mono_left ?_) hfor
      intro m _ hm
      by_cases hid : m.id = nid
      · exfalso
        simp only [Function.comp, hid, if_pos, Bool.and_eq_true, decide_eq_true_eq] at hm
        exact resolveDecision_toStatus_ne_pending d hm.2
      · simpa [Function.comp, hid] using hm
    | cancelNeg role uid nid =>
      obtain ⟨n, hn, hpend, hdb'⟩ := cancelNegotiation_ok (by simpa [runOp] using hrun)
      subst hdb'
      intro s c
      have hfor := h s c
      simp only [pendingFor] at hfor ⊢
      exact le_trans
        (List.Sublist.length_le
          (List.Sublist.filter _ (List.filter_sublist db.negotiations)))
        hfor
    | createRev role cid body now =>
      obtain ⟨-, hdb'⟩ := createReview_ok (by simpa [runOp] using hrun)
      subst hdb'
      intro s c
      have hfor := h s c
      simp only [pendingFor, recomputeServiceAvg, writeServiceAvg] at hfor ⊢
      exact hfor
    | updateRev role uid rid body now =>
      obtain ⟨r, hr, hnone, hsome⟩ := updateReview_ok (by simpa [runOp] using hrun)
      intro s c
      have hfor := h s c
      rcases hb : body.rating with _ | k
      · rw [hnone hb]
        simp only [pendingFor, patchReviewDb] at hfor ⊢
        exact hfor
      · rw [hsome (by simp [hb])]
        simp only [pendingFor, recomputeServiceAvg, writeServiceAvg, patchReviewDb] at hfor ⊢
        exact hfor
    | deleteRev role uid rid =>
      obtain ⟨r, hr, hdb'⟩ := deleteReview_ok (by simpa [runOp] using hrun)
      subst hdb'
      intro s c
      have hfor := h s c
      simp only [pendingFor, recomputeServiceAvg, writeServiceAvg] at hfor ⊢
      exact hfor

end Marketplace

namespace Marketplace

lemma atMostOnePending_of_short {db : Db} (h : db.negotiations.length ≤ 1) :
    atMostOnePending db :=
  fun _ _ => le_trans (List.length_filter_le _ _) h

/-- The store after a successful `createNegotiation` insert. -/
def insertedNegotiationDb (db : Db) (sid cid : Nat) (price : ℚ) (now : Nat) : Db :=
  { db with
    negotiations := db.negotiations ++ [newNegotiation db sid cid price now]
    nextNegotiationId := db.nextNegotiationId + 1 }

/-- C3: at most one PENDING negotiation per (serviceId, customerId) pair.
From a state satisfying the invariant, `createNegotiation` fails with
`DuplicatePending` whenever a PENDING negotiation for the pair exists
(the earlier checks passing); it succeeds and inserts a new PENDING record
once none exists (e.g. after resolution or cancellation); and every
controller operation preserves the invariant, so every reachable state
satisfies it. -/
theorem pendingUniqueness_invariant :
    (∀ (role : Role) (cid : Nat) (body : NegotiationBody) (now : Nat) (db : Db)
       (s : Service),
      atMostOnePending db →
      (role = Role.CUSTOMER ∨ role = Role.ADMIN) → 0 < body.offerPrice →
      findService db body.serviceId = some s → ¬ (s.vendorId = cid) →
      (∃ n ∈ db.negotiations, n.serviceId = body.serviceId ∧ n.customerId = cid ∧
        n.status = .PENDING) →
      createNegotiation role cid body now db = .error .duplicatePending) ∧
    (∀ (role : Role) (cid : Nat) (body : NegotiationBody) (now : Nat) (db : Db)
       (s : Service),
      atMostOnePending db →
      (role = Role.CUSTOMER ∨ role = Role.ADMIN) → 0 < body.offerPrice →
      findService db body.serviceId = some s → ¬ (s.vendorId = cid) →
      (∀ n ∈ db.negotiations, ¬ (n.serviceId = body.serviceId ∧ n.customerId = cid ∧
        n.status = .PENDING)) →
      ∃ db', createNegotiation role cid body now db = .ok db' ∧
        newNegotiation db body.serviceId cid body.offerPrice now ∈ db'.negotiations ∧
        (newNegotiation db body.serviceId cid body.offerPrice now).status = .PENDING) ∧
    (∀ (op : Op) (db : Db), atMostOnePending db → atMostOnePending (applyOp op db)) := by
  refine ⟨?_, ?_, atMostOnePending_preserved⟩
  · intro role cid body now db s _ h h2 h3 h4 h5
    have hdup : (findNegotiationWithStatus db body.serviceId cid .PENDING).isSome := by
      simpa [findNegotiationWithStatus, List.find?_isSome, and_assoc] using h5
    rcases h with h | h <;> simp [createNegotiation, h, h2, h3, h4, hdup]
  · intro role cid body now db s _ h h2 h3 h4 h5
    have hnone : findNegotiationWithStatus db body.serviceId cid .PENDING = none := by
      simp only [findNegotiationWithStatus, List.find?_eq_none]
      intro n hn
      simpa [and_assoc] using h5 n hn
    refine ⟨insertedNegotiationDb db body.serviceId cid body.offerPrice now, ?_, ?_, rfl⟩
    · rcases h with h | h <;>
        simp [createNegotiation, h, h2, h3, h4, hnone, insertedNegotiationDb, newNegotiation]
    · simp [insertedNegotiationDb, newNegotiation]

/-- C3 (witness): a customer with a PENDING negotiation on a service cannot
open a second one for the same service. -/
theorem pendingUniqueness_invariant_witness :
    createNegotiation Role.CUSTOMER 20 { serviceId := 1, offerPrice := 60 } 5
        { services := [{ id := 1, vendorId := 10, avgRating := 0 }]
          negotiations := [{ id := 1, serviceId := 1, customerId := 20
                             offerPrice := 80, status := .PENDING, updatedAt := 3 }]
          reviews := [], nextNegotiationId := 2, nextReviewId := 1 }
      = .error .duplicatePending :=
  pendingUniqueness_invariant.1 Role.CUSTOMER 20 { serviceId := 1, offerPrice := 60 } 5
    { services := [{ id := 1, vendorId := 10, avgRating := 0 }]
      negotiations := [{ id := 1, serviceId := 1, customerId := 20
                         offerPrice := 80, status := .PENDING, updatedAt := 3 }]
      reviews := [], nextNegotiationId := 2, nextReviewId := 1 }
    { id := 1, vendorId := 10, avgRating := 0 }
    (atMostOnePending_of_short (by decide))
    (Or.inl rfl) (by norm_num) rfl (by decide)
    ⟨{ id := 1, serviceId := 1, customerId := 20
       offerPrice := 80, status := .PENDING, updatedAt := 3 },
      by simp, rfl, rfl, rfl⟩

/-! ## C4: ACCEPTED/REJECTED are terminal -/

/-- C4 (counterexample): a resolve attempt on an ACCEPTED negotiation by a
vendor who does not own the service fails with `Forbidden`, not
`InvalidStateTransition` — so not *every* attempt on a non-PENDING
negotiation fails with `InvalidStateTransition` (the record is still left
unchanged). -/
theorem resolveNonPending_forbidden_for_nonOwner :
    updateNegotiationStatus Role.VENDOR 99 1 .accept 7
        { services := [{ id := 1, vendorId := 10, avgRating := 0 }]
          negotiations := [{ id := 1, serviceId := 1, customerId := 20
                             offerPrice := 80, status := .ACCEPTED, updatedAt := 0 }]
          reviews := [], nextNegotiationId := 2, nextReviewId := 1 }
      = .error .forbidden ∧
    ApiError.forbidden ≠ ApiError.invalidStateTransition := by
  constructor
  · simp [updateNegotiationStatus, findNegotiation, findService, List.find?]
  · decide

/-- C4 (amended): once a negotiation is ACCEPTED or REJECTED it never
changes and is never deleted: any resolve or cancel invocation leaves every
non-PENDING negotiation record in the store unchanged (given unique primary
keys), and an invocation that passes the role and ownership checks while
targeting a non-PENDING negotiation fails with `InvalidStateTransition`
(an unauthorized one fails with `Forbidden` instead). -/
theorem terminalNegotiation_immutable :
    (∀ (role : Role) (uid nid : Nat) (d : ResolveDecision) (now : Nat) (db : Db)
       (n : Negotiation),
      negotiationIdsNodup db → n ∈ db.negotiations → ¬ (n.status = .PENDING) →
      n ∈ (applyOp (.resolveNeg role uid nid d now) db).negotiations) ∧
    (∀ (role : Role) (uid nid : Nat) (db : Db) (n : Negotiation),
      negotiationIdsNodup db → n ∈ db.negotiations → ¬ (n.status = .PENDING) →
      n ∈ (applyOp (.cancelNeg role uid nid) db).negotiations) ∧
    (∀ (role : Role) (uid nid : Nat) (d : ResolveDecision) (now : Nat) (db : Db)
       (n : Negotiation) (s : Service),
      (role = Role.VENDOR ∨ role = Role.ADMIN) →
      findNegotiation db nid = some n → findService db n.serviceId = some s →
      (role = Role.ADMIN ∨ s.vendorId = uid) → ¬ (n.status = .PENDING) →
      updateNegotiationStatus role uid nid d now db = .error .invalidStateTransition) ∧
    (∀ (role : Role) (uid nid : Nat) (db : Db) (n : Negotiation),
      (role = Role.CUSTOMER ∨ role = Role.ADMIN) →
      findNegotiation db nid = some n →
      (role = Role.ADMIN ∨ n.customerId = uid) → ¬ (n.status = .PENDING) →
      cancelNegotiation role uid nid db = .error .invalidStateTransition) := by
  refine ⟨?_, ?_, ?_, ?_⟩
  · intro role uid nid d now db n hnodup hmem hnp
    rcases hrun : runOp (.resolveNeg role uid nid d now) db with e | db'
    · simpa [applyOp, hrun] using hmem
    · simp only [applyOp, hrun]
      obtain ⟨m, hm, hmp, hdb'⟩ := updateNegotiationStatus_ok (by simpa [runOp] using hrun)
      subst hdb'
      have hmmem : m ∈ db.negotiations := List.mem_of_find?_eq_some hm
      have hmid : m.id = nid := by simpa using List.find?_some hm
      have hnid : ¬ (n.id = nid) := by
        intro hc
        have : n = m := List.inj_on_of_nodup_map hnodup hmem hmmem (by rw [hc, hmid])
        rw [this] at hnp
        exact hnp hmp
      exact List.mem_map.2 ⟨n, hmem, by simp [hnid]⟩
  · intro role uid nid db n hnodup hmem hnp
    rcases hrun : runOp (.cancelNeg role uid nid) db with e | db'
    · simpa [applyOp, hrun] using hmem
    · simp only [applyOp, hrun]
      obtain ⟨m, hm, hmp, hdb'⟩ := cancelNegotiation_ok (by simpa [runOp] using hrun)
      subst hdb'
      have hmmem : m ∈ db.negotiations := List.mem_of_find?_eq_some hm
      have hmid : m.id = nid := by simpa using List.find?_some hm
      have hnid : ¬ (n.id = nid) := by
        intro hc
        have : n = m := List.inj_on_of_nodup_map hnodup hmem hmmem (by rw [hc, hmid])
        rw [this] at hnp
        exact hnp hmp
      exact List.mem_filter.2 ⟨hmem, by simp [hnid]⟩
  · intro role uid nid d now db n s h h2 h3 hauth h5
    rcases h with h | h <;> rcases hauth with ha | ha <;>
      simp_all [updateNegotiationStatus]
  · intro role uid nid db n h h2 hauth h4
    rcases h with h | h <;> rcases hauth with ha | ha <;>
      simp_all [cancelNegotiation]

/-- C4 (witness): the owning vendor's second resolve attempt on an already
ACCEPTED negotiation fails with `InvalidStateTransition`, and the record
survives the attempt unchanged. -/
theorem terminalNegotiation_immutable_witness :
    updateNegotiationStatus Role.VENDOR 10 1 .accept 7
        { services := [{ id := 1, vendorId := 10, avgRating := 0 }]
          negotiations := [{ id := 1, serviceId := 1, customerId := 20
                             offerPrice := 80, status := .ACCEPTED, updatedAt := 0 }]
          reviews := [], nextNegotiationId := 2, nextReviewId := 1 }
      = .error .invalidStateTransition ∧
    { id := 1, serviceId := 1, customerId := 20
      offerPrice := 80, status := .ACCEPTED, updatedAt := 0 } ∈
      (applyOp (.resolveNeg Role.VENDOR 10 1 .accept 7)
        { services := [{ id := 1, vendorId := 10, avgRating := 0 }]
          negotiations := [{ id := 1, serviceId := 1, customerId := 20
                             offerPrice := 80, status := .ACCEPTED, updatedAt := 0 }]
          reviews := [], nextNegotiationId := 2, nextReviewId := 1 }).negotiations :=
  ⟨terminalNegotiation_immutable.2.2.1 Role.VENDOR 10 1 .accept 7
      { services := [{ id := 1, vendorId := 10, avgRating := 0 }]
        negotiations := [{ id := 1, serviceId := 1, customerId := 20
                           offerPrice := 80, status := .ACCEPTED, updatedAt := 0 }]
        reviews := [], nextNegotiationId := 2, nextReviewId := 1 }
      { id := 1, serviceId := 1, customerId := 20
        offerPrice := 80, status := .ACCEPTED, updatedAt := 0 }
      { id := 1, vendorId := 10, avgRating := 0 }
      (Or.inl rfl) rfl rfl (Or.inr rfl) (by decide),
    terminalNegotiation_immutable.1 Role.VENDOR 10 1 .accept 7
      { services := [{ id := 1, vendorId := 10, avgRating := 0 }]
        negotiations := [{ id := 1, serviceId := 1, customerId := 20
                           offerPrice := 80, status := .ACCEPTED, updatedAt := 0 }]
        reviews := [], nextNegotiationId := 2, nextReviewId := 1 }
      { id := 1, serviceId := 1, customerId := 20
        offerPrice := 80, status := .ACCEPTED, updatedAt := 0 }
      (by decide) (by simp) (by decide)⟩

end Marketplace

namespace Marketplace

/-! ## C7 / C10: review-creation eligibility and admin exemption -/

/-- The store after a successful `tx.review.create`. -/
def insertedReviewDb (db : Db) (body : ReviewBody) (cid now : Nat) : Db :=
  { db with
    reviews := db.reviews ++ [newReview db body cid now]
    nextReviewId := db.nextReviewId + 1 }

/-- C7: a (non-admin) customer may create a review only when backed by an
ACCEPTED negotiation on the service: with every earlier check passing,
`createReview` fails with `Ineligible` when the customer holds no ACCEPTED
negotiation on the service, and succeeds once one exists. -/
theorem reviewEligibility (cid : Nat) (body : ReviewBody) (now : Nat) (db : Db)
    (s : Service) :
    reviewBodyValid body →
    findService db body.serviceId = some s → ¬ (s.vendorId = cid) →
    findReviewByPair db body.serviceId cid = none →
    ((∀ n ∈ db.negotiations, ¬ (n.serviceId = body.serviceId ∧ n.customerId = cid ∧
        n.status = .ACCEPTED)) →
      createReview Role.CUSTOMER cid body now db = .error .ineligible) ∧
    ((∃ n ∈ db.negotiations, n.serviceId = body.serviceId ∧ n.customerId = cid ∧
        n.status = .ACCEPTED) →
      createReview Role.CUSTOMER cid body now db
        = .ok (recomputeServiceAvg (insertedReviewDb db body cid now) body.serviceId)) := by
  intro hval hs hvend hnodup
  constructor
  · intro hno
    have hnone : findNegotiationWithStatus db body.serviceId cid .ACCEPTED = none := by
      simp only [findNegotiationWithStatus, List.find?_eq_none]
      intro n hn
      simpa [and_assoc] using hno n hn
    simp [createReview, hval, hs, hvend, hnodup, hnone]
  · intro hyes
    have hsome : (findNegotiationWithStatus db body.serviceId cid .ACCEPTED).isSome := by
      simpa [findNegotiationWithStatus, List.find?_isSome, and_assoc] using hyes
    rcases Option.isSome_iff_exists.mp hsome with ⟨n, hn⟩
    simp [createReview, hval, hs, hvend, hnodup, hn, insertedReviewDb, newReview]

/-- C7 (witness): without an ACCEPTED negotiation the customer's review is
rejected as ineligible. -/
theorem reviewEligibility_witness :
    createReview Role.CUSTOMER 20 { serviceId := 1, rating := 4, comment := none } 9
        { services := [{ id := 1, vendorId := 10, avgRating := 0 }]
          negotiations := [{ id := 1, serviceId := 1, customerId := 20
                             offerPrice := 80, status := .PENDING, updatedAt := 3 }]
          reviews := [], nextNegotiationId := 2, nextReviewId := 1 }
      = .error .ineligible :=
  (reviewEligibility 20 { serviceId := 1, rating := 4, comment := none } 9
      { services := [{ id := 1, vendorId := 10, avgRating := 0 }]
        negotiations := [{ id := 1, serviceId := 1, customerId := 20
                           offerPrice := 80, status := .PENDING, updatedAt := 3 }]
        reviews := [], nextNegotiationId := 2, nextReviewId := 1 }
      { id := 1, vendorId := 10, avgRating := 0 }
      (by decide) rfl (by decide) rfl).1 (by decide)

/-- C10: an ADMIN caller of `createReview` bypasses only the
accepted-negotiation eligibility check: the self-review and
duplicate-review checks still apply and are evaluated first, and with both
passing the admin's review is created without any negotiation existing. -/
theorem adminReviewChecks (adminId : Nat) (body : ReviewBody) (now : Nat)
    (db : Db) (s : Service) :
    reviewBodyValid body → findService db body.serviceId = some s →
    ((s.vendorId = adminId →
      createReview Role.ADMIN adminId body now db = .error .selfReview) ∧
     (¬ (s.vendorId = adminId) →
      (∃ r ∈ db.reviews, r.serviceId = body.serviceId ∧ r.customerId = adminId) →
      createReview Role.ADMIN adminId body now db = .error .duplicateReview) ∧
     (¬ (s.vendorId = adminId) →
      (∀ r ∈ db.reviews, ¬ (r.serviceId = body.serviceId ∧ r.customerId = adminId)) →
      createReview Role.ADMIN adminId body now db
        = .ok (recomputeServiceAvg (insertedReviewDb db body adminId now) body.serviceId))) := by
  intro hval hs
  refine ⟨?_, ?_, ?_⟩
  · intro hself
    simp [createReview, hval, hs, hself]
  · intro hvend hdup
    have hsome : (findReviewByPair db body.serviceId adminId).isSome := by
      simpa [findReviewByPair, List.find?_isSome] using hdup
    simp [createReview, hval, hs, hvend, hsome]
  · intro hvend hnodup
    have hnone : findReviewByPair db body.serviceId adminId = none := by
      simp only [findReviewByPair, List.find?_eq_none]
      intro r hr
      simpa using hnodup r hr
    simp [createReview, hval, hs, hvend, hnone, insertedReviewDb, newReview]

/-- C10 (witness): an ADMIN reviewing a service of their own is rejected
with the self-review error, and an ADMIN's duplicate review is rejected,
exactly as for customers. -/
theorem adminReviewChecks_witness :
    createReview Role.ADMIN 10 { serviceId := 1, rating := 4, comment := none } 9
        { services := [{ id := 1, vendorId := 10, avgRating := 0 }]
          negotiations := [], reviews := [], nextNegotiationId := 1, nextReviewId := 1 }
      = .error .selfReview :=
  ((adminReviewChecks 10 { serviceId := 1, rating := 4, comment := none } 9
      { services := [{ id := 1, vendorId := 10, avgRating := 0 }]
        negotiations := [], reviews := [], nextNegotiationId := 1, nextReviewId := 1 }
      { id := 1, vendorId := 10, avgRating := 0 }
      (by decide) rfl).1) rfl

end Marketplace

namespace Marketplace

/-! ## C9: updateReview always overwrites the comment column -/

/-- C9: `updateReview` writes the comment column unconditionally: when the
request omits the comment (or supplies one that trims to the empty string),
the stored comment of the updated review becomes `null` — updating only the
rating does not keep the pre-existing comment. -/
theorem updateReview_comment_overwrite (role : Role) (uid rid : Nat)
    (body : ReviewPatch) (now : Nat) (db db' : Db) :
    (body.comment = none ∨ ∃ s, body.comment = some s ∧ s.trim = "") →
    updateReview role uid rid body now db = .ok db' →
    (∃ r ∈ db'.reviews, r.id = rid) ∧
    (∀ r ∈ db'.reviews, r.id = rid → r.comment = none) := by
  intro hc hok
  have hcn : normalizeComment body.comment = none := by
    rcases hc with hc | ⟨s, hc, hts⟩
    · rw [hc]; rfl
    · rw [hc]; simp [normalizeComment, hts]
  obtain ⟨r0, hr0, hnone, hsome⟩ := updateReview_ok hok
  have hr0mem : r0 ∈ db.reviews := List.mem_of_find?_eq_some hr0
  have hr0id : r0.id = rid := by simpa using List.find?_some hr0
  have hrev : db'.reviews = db.reviews.map
      (fun m => if m.id = rid then patchReview body now m else m) := by
    rcases hb : body.rating with _ | k
    · rw [hnone hb]; rfl
    · rw [hsome (by simp [hb])]; rfl
  constructor
  · refine ⟨patchReview body now r0, ?_, ?_⟩
    · rw [hrev]
      exact List.mem_map.2 ⟨r0, hr0mem, by simp [hr0id]⟩
    · simp [patchReview, hr0id]
  · intro r hr hid
    rw [hrev] at hr
    rcases List.mem_map.1 hr with ⟨m, hm, hfm⟩
    by_cases hmid : m.id = rid
    · rw [← hfm]
      simp [hmid, patchReview, hcn]
    · rw [← hfm] at hid
      simp [hmid] at hid

/-- C9 (witness): updating only the rating of a review that carried a
comment leaves the stored comment `null`. -/
theorem updateReview_comment_overwrite_witness :
    updateReview Role.CUSTOMER 20 1
        { serviceId := none, rating := some 3, comment := none } 9
        { services := [{ id := 1, vendorId := 10, avgRating := 4 }]
          negotiations := []
          reviews := [{ id := 1, serviceId := 1, customerId := 20, rating := 4
                        comment := some "great", updatedAt := 0 }]
          nextNegotiationId := 1, nextReviewId := 2 }
      = .ok { services := [{ id := 1, vendorId := 10, avgRating := 3 }]
              negotiations := []
              reviews := [{ id := 1, serviceId := 1, customerId := 20, rating := 3
                            comment := none, updatedAt := 9 }]
              nextNegotiationId := 1, nextReviewId := 2 } ∧
    (∀ r ∈ [{ id := 1, serviceId := 1, customerId := 20, rating := 3
              comment := none, updatedAt := 9 : Review }], r.id = 1 → r.comment = none) := by
  have hok : updateReview Role.CUSTOMER 20 1
      { serviceId := none, rating := some 3, comment := none } 9
      { services := [{ id := 1, vendorId := 10, avgRating := 4 }]
        negotiations := []
        reviews := [{ id := 1, serviceId := 1, customerId := 20, rating := 4
                      comment := some "great", updatedAt := 0 }]
        nextNegotiationId := 1, nextReviewId := 2 }
    = .ok { services := [{ id := 1, vendorId := 10, avgRating := 3 }]
            negotiations := []
            reviews := [{ id := 1, serviceId := 1, customerId := 20, rating := 3
                          comment := none, updatedAt := 9 }]
            nextNegotiationId := 1, nextReviewId := 2 } := by
    norm_num [updateReview, reviewPatchValid, findReview, patchReviewDb, patchReview,
      normalizeComment, recomputeServiceAvg, writeServiceAvg, meanRating, reviewsOf,
      roundTo2, List.find?, List.filter]
  refine ⟨hok, ?_⟩
  exact (updateReview_comment_overwrite Role.CUSTOMER 20 1
    { serviceId := none, rating := some 3, comment := none } 9
    { services := [{ id := 1, vendorId := 10, avgRating := 4 }]
      negotiations := []
      reviews := [{ id := 1, serviceId := 1, customerId := 20, rating := 4
                    comment := some "great", updatedAt := 0 }]
      nextNegotiationId := 1, nextReviewId := 2 }
    _ (Or.inl rfl) hok).2

end Marketplace

namespace Marketplace

/-! ## C1 / C2: the stored `avgRating` after a review mutation -/

lemma find?_map_setAvg (l : List Service) (sid : Nat) (v : ℚ) :
    (l.map (fun s => if s.id = sid then { s with avgRating := v } else s)).find?
        (fun s => s.id = sid)
      = (l.find? (fun s => s.id = sid)).map (fun s => { s with avgRating := v }) := by
  induction l with
  | nil => rfl
  | cons a t ih =>
    by_cases ha : a.id = sid
    · simp [List.find?_cons, ha]
    · simp [List.find?_cons, ha, ih]

lemma serviceAvg_recompute {d : Db} {sid : Nat} (h : (findService d sid).isSome) :
    serviceAvg (recomputeServiceAvg d sid) sid
      = some (roundTo2 (meanRating d sid)) := by
  rcases Option.isSome_iff_exists.mp h with ⟨s, hs⟩
  simp only [serviceAvg, recomputeServiceAvg, writeServiceAvg, findService] at hs ⊢
  rw [find?_map_setAvg, hs]
  rfl

lemma meanRating_recompute (d : Db) (sid sid' : Nat) :
    meanRating (recomputeServiceAvg d sid) sid' = meanRating d sid' := rfl

/-- C1 (counterexample): the `avg_rating` column is `NUMERIC(3,2)`, so the
stored value is the mean rounded to two decimals, not the exact mean.
Three reviews rated 5, 4 and 4 give a mean of `13/3 = 4.333…` but a stored
`avgRating` of `4.33`. -/
theorem avgRating_not_exact_mean :
    (createReview Role.CUSTOMER 22 { serviceId := 1, rating := 4, comment := none } 7
        { services := [{ id := 1, vendorId := 10, avgRating := 9/2 }]
          negotiations := [{ id := 1, serviceId := 1, customerId := 22
                             offerPrice := 70, status := .ACCEPTED, updatedAt := 0 }]
          reviews := [{ id := 1, serviceId := 1, customerId := 20, rating := 5
                        comment := none, updatedAt := 0 },
                      { id := 2, serviceId := 1, customerId := 21, rating := 4
                        comment := none, updatedAt := 0 }]
          nextNegotiationId := 2, nextReviewId := 3 }
      = .ok { services := [{ id := 1, vendorId := 10, avgRating := 433/100 }]
              negotiations := [{ id := 1, serviceId := 1, customerId := 22
                                 offerPrice := 70, status := .ACCEPTED, updatedAt := 0 }]
              reviews := [{ id := 1, serviceId := 1, customerId := 20, rating := 5
                            comment := none, updatedAt := 0 },
                          { id := 2, serviceId := 1, customerId := 21, rating := 4
                            comment := none, updatedAt := 0 },
                          { id := 3, serviceId := 1, customerId := 22, rating := 4
                            comment := none, updatedAt := 7 }]
              nextNegotiationId := 2, nextReviewId := 4 }) ∧
    meanRating { services := [{ id := 1, vendorId := 10, avgRating := 433/100 }]
                 negotiations := [{ id := 1, serviceId := 1, customerId := 22
                                    offerPrice := 70, status := .ACCEPTED, updatedAt := 0 }]
                 reviews := [{ id := 1, serviceId := 1, customerId := 20, rating := 5
                               comment := none, updatedAt := 0 },
                             { id := 2, serviceId := 1, customerId := 21, rating := 4
                               comment := none, updatedAt := 0 },
                             { id := 3, serviceId := 1, customerId := 22, rating := 4
                               comment := none, updatedAt := 7 }]
                 nextNegotiationId := 2, nextReviewId := 4 } 1 = 13/3 ∧
    serviceAvg { services := [{ id := 1, vendorId := 10, avgRating := 433/100 }]
                 negotiations := [{ id := 1, serviceId := 1, customerId := 22
                                    offerPrice := 70, status := .ACCEPTED, updatedAt := 0 }]
                 reviews := [{ id := 1, serviceId := 1, customerId := 20, rating := 5
                               comment := none, updatedAt := 0 },
                             { id := 2, serviceId := 1, customerId := 21, rating := 4
                               comment := none, updatedAt := 0 },
                             { id := 3, serviceId := 1, customerId := 22, rating := 4
                               comment := none, updatedAt := 7 }]
                 nextNegotiationId := 2, nextReviewId := 4 } 1 = some (433/100) ∧
    (433/100 : ℚ) ≠ 13/3 := by
  refine ⟨?_, ?_, ?_, by norm_num⟩
  · norm_num [createReview, reviewBodyValid, findService, findReviewByPair,
      findNegotiationWithStatus, normalizeComment, recomputeServiceAvg, writeServiceAvg,
      meanRating, reviewsOf, roundTo2, List.find?, List.filter]
  · norm_num [meanRating, reviewsOf, List.filter]
  · norm_num [serviceAvg, findService, List.find?]

end Marketplace

namespace Marketplace

/-- C1 (amended): after any successful `createReview`, `deleteReview`, or
`updateReview` with a rating supplied, the `avgRating` stored on the
service whose aggregate the operation recomputes (the target service for
create; the review's pre-operation service for update/delete) equals the
mean of that service's current reviews rounded to the column's two decimal
digits — `roundTo2 0 = 0` when no reviews remain. -/
theorem avgRating_rounded_mean_after_mutation :
    (∀ (role : Role) (cid : Nat) (body : ReviewBody) (now : Nat) (db db' : Db),
      createReview role cid body now db = .ok db' →
      serviceAvg db' body.serviceId = some (roundTo2 (meanRating db' body.serviceId))) ∧
    (∀ (role : Role) (uid rid : Nat) (db db' : Db) (r : Review),
      findReview db rid = some r → (findService db r.serviceId).isSome →
      deleteReview role uid rid db = .ok db' →
      serviceAvg db' r.serviceId = some (roundTo2 (meanRating db' r.serviceId))) ∧
    (∀ (role : Role) (uid rid : Nat) (body : ReviewPatch) (now : Nat) (db db' : Db)
       (r : Review),
      body.rating ≠ none →
      findReview db rid = some r → (findService db r.serviceId).isSome →
      updateReview role uid rid body now db = .ok db' →
      serviceAvg db' r.serviceId = some (roundTo2 (meanRating db' r.serviceId))) := by
  refine ⟨?_, ?_, ?_⟩
  · intro role cid body now db db' hok
    obtain ⟨hs, hdb'⟩ := createReview_ok hok
    subst hdb'
    rw [meanRating_recompute]
    exact serviceAvg_recompute hs
  · intro role uid rid db db' r hr hs hok
    obtain ⟨r0, hr0, hdb'⟩ := deleteReview_ok hok
    have heq : r0 = r := Option.some.inj (hr0.symm.trans hr)
    subst heq
    subst hdb'
    rw [meanRating_recompute]
    exact serviceAvg_recompute hs
  · intro role uid rid body now db db' r hrate hr hs hok
    obtain ⟨r0, hr0, -, hsome⟩ := updateReview_ok hok
    have heq : r0 = r := Option.some.inj (hr0.symm.trans hr)
    subst heq
    rw [hsome hrate] at hok ⊢
    rw [meanRating_recompute]
    exact serviceAvg_recompute hs

/-- C1 (witness): creating the third review (ratings 5, 4, 4) stores the
rounded mean `4.33` for the service. -/
theorem avgRating_rounded_mean_witness :
    createReview Role.CUSTOMER 22 { serviceId := 1, rating := 4, comment := none } 7
        { services := [{ id := 1, vendorId := 10, avgRating := 9/2 }]
          negotiations := [{ id := 1, serviceId := 1, customerId := 22
                             offerPrice := 70, status := .ACCEPTED, updatedAt := 0 }]
          reviews := [{ id := 1, serviceId := 1, customerId := 20, rating := 5
                        comment := none, updatedAt := 0 },
                      { id := 2, serviceId := 1, customerId := 21, rating := 4
                        comment := none, updatedAt := 0 }]
          nextNegotiationId := 2, nextReviewId := 3 }
      = .ok { services := [{ id := 1, vendorId := 10, avgRating := 433/100 }]
              negotiations := [{ id := 1, serviceId := 1, customerId := 22
                                 offerPrice := 70, status := .ACCEPTED, updatedAt := 0 }]
              reviews := [{ id := 1, serviceId := 1, customerId := 20, rating := 5
                            comment := none, updatedAt := 0 },
                          { id := 2, serviceId := 1, customerId := 21, rating := 4
                            comment := none, updatedAt := 0 },
                          { id := 3, serviceId := 1, customerId := 22, rating := 4
                            comment := none, updatedAt := 7 }]
              nextNegotiationId := 2, nextReviewId := 4 } ∧
    serviceAvg { services := [{ id := 1, vendorId := 10, avgRating := 433/100 }]
                 negotiations := [{ id := 1, serviceId := 1, customerId := 22
                                    offerPrice := 70, status := .ACCEPTED, updatedAt := 0 }]
                 reviews := [{ id := 1, serviceId := 1, customerId := 20, rating := 5
                               comment := none, updatedAt := 0 },
                             { id := 2, serviceId := 1, customerId := 21, rating := 4
                               comment := none, updatedAt := 0 },
                             { id := 3, serviceId := 1, customerId := 22, rating := 4
                               comment := none, updatedAt := 7 }]
                 nextNegotiationId := 2, nextReviewId := 4 } 1
      = some (roundTo2 (meanRating
          { services := [{ id := 1, vendorId := 10, avgRating := 433/100 }]
            negotiations := [{ id := 1, serviceId := 1, customerId := 22
                               offerPrice := 70, status := .ACCEPTED, updatedAt := 0 }]
            reviews := [{ id := 1, serviceId := 1, customerId := 20, rating := 5
                          comment := none, updatedAt := 0 },
                        { id := 2, serviceId := 1, customerId := 21, rating := 4
                          comment := none, updatedAt := 0 },
                        { id := 3, serviceId := 1, customerId := 22, rating := 4
                          comment := none, updatedAt := 7 }]
            nextNegotiationId := 2, nextReviewId := 4 } 1)) := by
  have hok : createReview Role.CUSTOMER 22 { serviceId := 1, rating := 4, comment := none } 7
      { services := [{ id := 1, vendorId := 10, avgRating := 9/2 }]
        negotiations := [{ id := 1, serviceId := 1, customerId := 22
                           offerPrice := 70, status := .ACCEPTED, updatedAt := 0 }]
        reviews := [{ id := 1, serviceId := 1, customerId := 20, rating := 5
                      comment := none, updatedAt := 0 },
                    { id := 2, serviceId := 1, customerId := 21, rating := 4
                      comment := none, updatedAt := 0 }]
        nextNegotiationId := 2, nextReviewId := 3 }
    = .ok { services := [{ id := 1, vendorId := 10, avgRating := 433/100 }]
            negotiations := [{ id := 1, serviceId := 1, customerId := 22
                               offerPrice := 70, status := .ACCEPTED, updatedAt := 0 }]
            reviews := [{ id := 1, serviceId := 1, customerId := 20, rating := 5
                          comment := none, updatedAt := 0 },
                        { id := 2, serviceId := 1, customerId := 21, rating := 4
                          comment := none, updatedAt := 0 },
                        { id := 3, serviceId := 1, customerId := 22, rating := 4
                          comment := none, updatedAt := 7 }]
            nextNegotiationId := 2, nextReviewId := 4 } := by
    norm_num [createReview, reviewBodyValid, findService, findReviewByPair,
      findNegotiationWithStatus, normalizeComment, recomputeServiceAvg, writeServiceAvg,
      meanRating, reviewsOf, roundTo2, List.find?, List.filter]
  exact ⟨hok, avgRating_rounded_mean_after_mutation.1 _ _ _ _ _ _ hok⟩

end Marketplace


namespace Marketplace

/-! ## C8: at most one review per (service, customer) pair -/

/-- Number of stored reviews for one (service, customer) pair. -/
def reviewPairCount (db : Db) (sid cid : Nat) : Nat :=
  db.reviews.countP (fun r => r.serviceId = sid && r.customerId = cid)

/-- C8 (violation): `updateReview` applies the whole `...validatedData`
spread, and `reviewSchema.partial()` keeps `serviceId` as an accepted
field, so an update request carrying `serviceId` moves a review to another
service with no duplicate check.  A customer holding reviews on services 1
and 2 moves the first onto service 2 and ends up with two reviews for the
pair (service 2, customer 20), breaking the at-most-one-review invariant
that `createReview`'s duplicate check was enforcing. -/
theorem updateReview_moves_review_duplicate_pair :
    updateReview Role.CUSTOMER 20 1
        { serviceId := some 2, rating := none, comment := none } 9
        { services := [{ id := 1, vendorId := 10, avgRating := 0 },
                       { id := 2, vendorId := 10, avgRating := 0 }]
          negotiations := []
          reviews := [{ id := 1, serviceId := 1, customerId := 20, rating := 5
                        comment := none, updatedAt := 0 },
                      { id := 2, serviceId := 2, customerId := 20, rating := 4
                        comment := none, updatedAt := 0 }]
          nextNegotiationId := 1, nextReviewId := 3 }
      = .ok { services := [{ id := 1, vendorId := 10, avgRating := 0 },
                           { id := 2, vendorId := 10, avgRating := 0 }]
              negotiations := []
              reviews := [{ id := 1, serviceId := 2, customerId := 20, rating := 5
                            comment := none, updatedAt := 9 },
                          { id := 2, serviceId := 2, customerId := 20, rating := 4
                            comment := none, updatedAt := 0 }]
              nextNegotiationId := 1, nextReviewId := 3 } ∧
    reviewPairCount
        { services := [{ id := 1, vendorId := 10, avgRating := 0 },
                       { id := 2, vendorId := 10, avgRating := 0 }]
          negotiations := []
          reviews := [{ id := 1, serviceId := 1, customerId := 20, rating := 5
                        comment := none, updatedAt := 0 },
                      { id := 2, serviceId := 2, customerId := 20, rating := 4
                        comment := none, updatedAt := 0 }]
          nextNegotiationId := 1, nextReviewId := 3 } 2 20 = 1 ∧
    reviewPairCount
        { services := [{ id := 1, vendorId := 10, avgRating := 0 },
                       { id := 2, vendorId := 10, avgRating := 0 }]
          negotiations := []
          reviews := [{ id := 1, serviceId := 2, customerId := 20, rating := 5
                        comment := none, updatedAt := 9 },
                      { id := 2, serviceId := 2, customerId := 20, rating := 4
                        comment := none, updatedAt := 0 }]
          nextNegotiationId := 1, nextReviewId := 3 } 2 20 = 2 := by
  refine ⟨?_, by decide, by decide⟩
  norm_num [updateReview, reviewPatchValid, findReview, patchReviewDb, patchReview,
    normalizeComment, List.find?]

end Marketplace

namespace Marketplace

lemma serviceAvg_recompute_hundredths {d : Db} {sid : Nat}
    (h : (findService d sid).isSome) :
    ∃ k : ℤ, serviceAvg (recomputeServiceAvg d sid) sid = some ((k : ℚ) / 100) :=
  ⟨⌊meanRating d sid * 100 + 1 / 2⌋, by rw [serviceAvg_recompute h]; rfl⟩

/-- C2: the `avgRating` written back to the service record by a successful
review creation, deletion, or rating update is the mean of the recomputed
service's current review set rounded to the fixed two-decimal scale of the
`NUMERIC(3,2)` column: `roundTo2` of the mean — an integer number of
hundredths — not the unrounded mean.  (After a creation the service's
review set is non-empty; for deletion/update the same rounded write-back
holds, with `roundTo2 0 = 0` if no reviews remain.) -/
theorem avgRating_fixedDecimal_writeback :
    (∀ (role : Role) (cid : Nat) (body : ReviewBody) (now : Nat) (db db' : Db),
      createReview role cid body now db = .ok db' →
      reviewsOf db' body.serviceId ≠ [] ∧
      serviceAvg db' body.serviceId = some (roundTo2 (meanRating db' body.serviceId)) ∧
      (∃ k : ℤ, serviceAvg db' body.serviceId = some ((k : ℚ) / 100))) ∧
    (∀ (role : Role) (uid rid : Nat) (db db' : Db) (r : Review),
      findReview db rid = some r → (findService db r.serviceId).isSome →
      deleteReview role uid rid db = .ok db' →
      serviceAvg db' r.serviceId = some (roundTo2 (meanRating db' r.serviceId)) ∧
      (∃ k : ℤ, serviceAvg db' r.serviceId = some ((k : ℚ) / 100))) ∧
    (∀ (role : Role) (uid rid : Nat) (body : ReviewPatch) (now : Nat) (db db' : Db)
       (r : Review),
      body.rating ≠ none →
      findReview db rid = some r → (findService db r.serviceId).isSome →
      updateReview role uid rid body now db = .ok db' →
      serviceAvg db' r.serviceId = some (roundTo2 (meanRating db' r.serviceId)) ∧
      (∃ k : ℤ, serviceAvg db' r.serviceId = some ((k : ℚ) / 100))) := by
  refine ⟨?_, ?_, ?_⟩
  · intro role cid body now db db' hok
    obtain ⟨hs, hdb'⟩ := createReview_ok hok
    subst hdb'
    refine ⟨?_, ?_, serviceAvg_recompute_hundredths hs⟩
    · have hmem : newReview db body cid now ∈ reviewsOf
          (recomputeServiceAvg
            { db with reviews := db.reviews ++ [newReview db body cid now]
                      nextReviewId := db.nextReviewId + 1 }
            body.serviceId) body.serviceId := by
        refine List.mem_filter.2 ⟨?_, by simp [newReview]⟩
        exact List.mem_append_right _ (by simp)
      exact List.ne_nil_of_mem hmem
    · rw [meanRating_recompute]
      exact serviceAvg_recompute hs
  · intro role uid rid db db' r hr hs hok
    obtain ⟨r0, hr0, hdb'⟩ := deleteReview_ok hok
    have heq : r0 = r := Option.some.inj (hr0.symm.trans hr)
    subst heq
    subst hdb'
    refine ⟨?_, serviceAvg_recompute_hundredths hs⟩
    rw [meanRating_recompute]
    exact serviceAvg_recompute hs
  · intro role uid rid body now db db' r hrate hr hs hok
    obtain ⟨r0, hr0, -, hsome⟩ := updateReview_ok hok
    have heq : r0 = r := Option.some.inj (hr0.symm.trans hr)
    subst heq
    rw [hsome hrate] at hok ⊢
    refine ⟨?_, serviceAvg_recompute_hundredths hs⟩
    rw [meanRating_recompute]
    exact serviceAvg_recompute hs

/-- State for the C2 witness: one service (vendor 10), an ACCEPTED
negotiation for customer 22, and reviews rated 5 (customer 20) and 4
(customer 21). -/
def c2dbA : Db :=
  { services := [{ id := 1, vendorId := 10, avgRating := 9/2 }]
    negotiations := [{ id := 1, serviceId := 1, customerId := 22
                       offerPrice := 70, status := .ACCEPTED, updatedAt := 0 }]
    reviews := [{ id := 1, serviceId := 1, customerId := 20, rating := 5
                  comment := none, updatedAt := 0 },
                { id := 2, serviceId := 1, customerId := 21, rating := 4
                  comment := none, updatedAt := 0 }]
    nextNegotiationId := 2, nextReviewId := 3 }

/-- `c2dbA` after customer 22 adds a rating of 4: mean `13/3`, stored
`4.33 = 433/100`. -/
def c2dbB : Db :=
  { services := [{ id := 1, vendorId := 10, avgRating := 433/100 }]
    negotiations := [{ id := 1, serviceId := 1, customerId := 22
                       offerPrice := 70, status := .ACCEPTED, updatedAt := 0 }]
    reviews := [{ id := 1, serviceId := 1, customerId := 20, rating := 5
                  comment := none, updatedAt := 0 },
                { id := 2, serviceId := 1, customerId := 21, rating := 4
                  comment := none, updatedAt := 0 },
                { id := 3, serviceId := 1, customerId := 22, rating := 4
                  comment := none, updatedAt := 8 }]
    nextNegotiationId := 2, nextReviewId := 4 }

/-- `c2dbB` after customer 22 deletes review 3: mean `9/2`, stored `4.50`. -/
def c2dbC : Db :=
  { services := [{ id := 1, vendorId := 10, avgRating := 9/2 }]
    negotiations := [{ id := 1, serviceId := 1, customerId := 22
                       offerPrice := 70, status := .ACCEPTED, updatedAt := 0 }]
    reviews := [{ id := 1, serviceId := 1, customerId := 20, rating := 5
                  comment := none, updatedAt := 0 },
                { id := 2, serviceId := 1, customerId := 21, rating := 4
                  comment := none, updatedAt := 0 }]
    nextNegotiationId := 2, nextReviewId := 4 }

/-- `c2dbC` after customer 20 lowers review 1 to rating 3: mean `7/2`,
stored `3.50`. -/
def c2dbD : Db :=
  { services := [{ id := 1, vendorId := 10, avgRating := 7/2 }]
    negotiations := [{ id := 1, serviceId := 1, customerId := 22
                       offerPrice := 70, status := .ACCEPTED, updatedAt := 0 }]
    reviews := [{ id := 1, serviceId := 1, customerId := 20, rating := 3
                  comment := none, updatedAt := 11 },
                { id := 2, serviceId := 1, customerId := 21, rating := 4
                  comment := none, updatedAt := 0 }]
    nextNegotiationId := 2, nextReviewId := 4 }

/-- C2 (witness): a create (ratings 5,4,4 → stored `433/100`, not the
unrounded `13/3`), a delete (5,4 → `9/2`) and a rating update (3,4 → `7/2`)
each write back the rounded two-decimal mean. -/
theorem avgRating_fixedDecimal_writeback_witness :
    createReview Role.CUSTOMER 22 { serviceId := 1, rating := 4, comment := none } 8 c2dbA
      = .ok c2dbB ∧
    serviceAvg c2dbB 1 = some (roundTo2 (meanRating c2dbB 1)) ∧
    deleteReview Role.CUSTOMER 22 3 c2dbB = .ok c2dbC ∧
    (serviceAvg c2dbC 1 = some (roundTo2 (meanRating c2dbC 1)) ∧
      ∃ k : ℤ, serviceAvg c2dbC 1 = some ((k : ℚ) / 100)) ∧
    updateReview Role.CUSTOMER 20 1
        { serviceId := none, rating := some 3, comment := none } 11 c2dbC
      = .ok c2dbD ∧
    (serviceAvg c2dbD 1 = some (roundTo2 (meanRating c2dbD 1)) ∧
      ∃ k : ℤ, serviceAvg c2dbD 1 = some ((k : ℚ) / 100)) ∧
    (433 / 100 : ℚ) ≠ 13 / 3 := by
  have hokC : createReview Role.CUSTOMER 22
      { serviceId := 1, rating := 4, comment := none } 8 c2dbA = .ok c2dbB := by
    norm_num [createReview, reviewBodyValid, findService, findReviewByPair,
      findNegotiationWithStatus, normalizeComment, recomputeServiceAvg, writeServiceAvg,
      meanRating, reviewsOf, roundTo2, c2dbA, c2dbB, List.find?, List.filter]
  have hokD : deleteReview Role.CUSTOMER 22 3 c2dbB = .ok c2dbC := by
    norm_num [deleteReview, findReview, recomputeServiceAvg, writeServiceAvg,
      meanRating, reviewsOf, roundTo2, c2dbB, c2dbC, List.find?, List.filter]
  have hokU : updateReview Role.CUSTOMER 20 1
      { serviceId := none, rating := some 3, comment := none } 11 c2dbC = .ok c2dbD := by
    norm_num [updateReview, reviewPatchValid, findReview, patchReviewDb, patchReview,
      normalizeComment, recomputeServiceAvg, writeServiceAvg, meanRating, reviewsOf,
      roundTo2, c2dbC, c2dbD, List.find?, List.filter]
  refine ⟨hokC, (avgRating_fixedDecimal_writeback.1 _ _ _ _ _ _ hokC).2.1,
    hokD, ?_, hokU, ?_, by norm_num⟩
  · exact avgRating_fixedDecimal_writeback.2.1 Role.CUSTOMER 22 3 c2dbB c2dbC
      { id := 3, serviceId := 1, customerId := 22, rating := 4
        comment := none, updatedAt := 8 }
      (by rfl) (by rfl) hokD
  · exact avgRating_fixedDecimal_writeback.2.2 Role.CUSTOMER 20 1
      { serviceId := none, rating := some 3, comment := none } 11 c2dbC c2dbD
      { id := 1, serviceId := 1, customerId := 20, rating := 5
        comment := none, updatedAt := 0 }
      (by decide) (by rfl) (by rfl) hokU

end Marketplace
